import Mathlib

/-!
Verification of the RAN optimizer core (`src/ran_environment.py`, `src/agent.py`,
`src/ab_testing.py`) against its natural-language specification.

Numeric values are modelled as rationals (`ℚ`); Python `int` is modelled as `ℤ`.
Stochastic draws (`np.random.uniform` / `np.random.randint`) are modelled as
explicit parameters carrying the drawn value; range hypotheses on those
parameters reflect the support of the distribution the code draws from.
-/

namespace RANOpt

/-- `np.clip(x, lo, hi)`: numpy computes `min (max x lo) hi`. -/
def clip (x lo hi : ℚ) : ℚ := min (max x lo) hi

/-- Python `int(q)` on a float: truncation toward zero. -/
def py_int (q : ℚ) : ℤ := if 0 ≤ q then ⌊q⌋ else ⌈q⌉

/-- One radio cell, as built by `RANEnvironment._reset_simulated` /
`_reset_from_real_data` (a Python dict with a fixed key set). -/
structure Cell where
  id : ℕ
  cell_type : String
  tx_power : ℚ
  antenna_tilt : ℚ
  handover_threshold : ℚ
  num_users : ℤ
  throughput : ℚ
  drop_rate : ℚ
  power_consumption : ℚ
  interference : ℚ
  latency : ℚ
  snr : ℚ
  qos_satisfaction : ℚ
  frequency : ℚ
  bandwidth : ℚ
  optimized_action : String
  optimized_power : ℚ
deriving DecidableEq, Repr

instance : Inhabited Cell where
  default :=
    { id := 0, cell_type := "Macro", tx_power := 40, antenna_tilt := 3,
      handover_threshold := 70, num_users := 100, throughput := 50,
      drop_rate := 1/20, power_consumption := 20, interference := 1/10,
      latency := 15, snr := 20, qos_satisfaction := 80, frequency := 7/2,
      bandwidth := 100, optimized_action := "Maintain_Power", optimized_power := 40 }

/-- The per-parameter deltas returned by `RANEnvironment._decode_action`. -/
structure ActionChanges where
  power : ℚ
  tilt : ℚ
  handover : ℚ
deriving DecidableEq, Repr

/-- `power_changes = [-3, 0, 3]` in `_decode_action`. -/
def power_changes : List ℚ := [-3, 0, 3]

/-- `tilt_changes = [-2, 0, 2]` in `_decode_action`. -/
def tilt_changes : List ℚ := [-2, 0, 2]

/-- `handover_changes = [-5, 0, 5]` in `_decode_action`. -/
def handover_changes : List ℚ := [-5, 0, 5]

/-- `RANEnvironment._decode_action`: mixed-radix decomposition of the action
index into the three delta lists. -/
def decode_action (action : ℕ) : ActionChanges :=
  { power := power_changes.getD (action / 9) 0,
    tilt := tilt_changes.getD ((action % 9) / 3) 0,
    handover := handover_changes.getD (action % 3) 0 }

/-- The inverse (re-encoding) map of the mixed-radix decomposition: index of
each delta in its list, recombined base 3-3-3.  The source has no explicit
encoder; this is the mathematical inverse the spec's bijectivity clause is
about. -/
def encode_changes (c : ActionChanges) : ℕ :=
  9 * power_changes.indexOf c.power + 3 * tilt_changes.indexOf c.tilt +
    handover_changes.indexOf c.handover

/-- Cell-type sensitivity lookup in `RANEnvironment._simulate_changes`:
`{'Macro': 1.0, 'Micro': 0.8, 'Pico': 0.6, 'Femto': 0.4}.get(cell_type, 1.0)`. -/
def type_multiplier (cell_type : String) : ℚ :=
  if cell_type = "Macro" then 1
  else if cell_type = "Micro" then 4/5
  else if cell_type = "Pico" then 3/5
  else if cell_type = "Femto" then 2/5
  else 1

/-- The random draws consumed by one `RANEnvironment._simulate_changes` call,
one field per `np.random.uniform` site (the value drawn, with the site's
support recorded in the comment). -/
structure StepNoise where
  /-- `np.random.uniform(2, 8)` — throughput gain when the power delta is positive. -/
  power_up_throughput : ℚ
  /-- `np.random.uniform(1, 4)` — throughput loss when the power delta is negative. -/
  power_down_throughput : ℚ
  /-- `np.random.uniform(-3, 5)` — throughput shift when the tilt delta is nonzero. -/
  tilt_throughput : ℚ
  /-- `np.random.uniform(-0.02, 0.02)` — interference shift when the tilt delta is nonzero. -/
  tilt_interference : ℚ
  /-- `np.random.uniform(-2, 2)` — unconditional throughput noise. -/
  throughput_noise : ℚ
  /-- `np.random.uniform(-0.005, 0.005)` — unconditional drop-rate noise. -/
  drop_noise : ℚ
deriving DecidableEq, Repr

/-- `RANEnvironment._simulate_changes`: sequential in-place mutation of the
targeted cell, translated as successive record updates. -/
def simulate_changes (cell : Cell) (changes : ActionChanges) (noise : StepNoise) : Cell :=
  let m := type_multiplier cell.cell_type
  let cell :=
    if 0 < changes.power then
      { cell with throughput := cell.throughput + noise.power_up_throughput * m,
                  interference := cell.interference + 1/20 * m,
                  power_consumption := cell.tx_power * (1/2) }
    else if changes.power < 0 then
      { cell with throughput := cell.throughput - noise.power_down_throughput * m,
                  interference := cell.interference - 3/100 * m,
                  power_consumption := cell.tx_power * (1/2) }
    else cell
  let cell :=
    if changes.tilt ≠ 0 then
      { cell with throughput := cell.throughput + noise.tilt_throughput * m,
                  interference := cell.interference + noise.tilt_interference }
    else cell
  let cell :=
    if changes.handover < 0 then
      { cell with drop_rate := cell.drop_rate * (9/10),
                  num_users := py_int ((cell.num_users : ℚ) * (19/20)) }
    else if 0 < changes.handover then
      { cell with drop_rate := cell.drop_rate * (21/20),
                  num_users := py_int ((cell.num_users : ℚ) * (21/20)) }
    else cell
  let cell :=
    { cell with throughput := cell.throughput + noise.throughput_noise,
                drop_rate := cell.drop_rate + noise.drop_noise }
  { cell with throughput := clip cell.throughput 10 1000,
              drop_rate := clip cell.drop_rate 0 (3/20),
              interference := clip cell.interference 0 1,
              num_users := max 1 cell.num_users }

/-- The dict returned by `RANEnvironment._calculate_cell_metrics`. -/
structure CellMetrics where
  throughput : ℚ
  drop_rate : ℚ
  power : ℚ
  interference : ℚ
  user_satisfaction : ℚ
deriving DecidableEq, Repr

/-- `RANEnvironment._calculate_satisfaction`.  Every cell dict built by this
environment carries the `qos_satisfaction` key, so the source's
`'qos_satisfaction' in cell and cell['qos_satisfaction'] > 0` reduces to the
positivity test. -/
def calculate_satisfaction (cell : Cell) : ℚ :=
  if 0 < cell.qos_satisfaction then cell.qos_satisfaction
  else
    min (cell.throughput / 100) 1 * 50 +
      (1 - min (cell.drop_rate / (1/10)) 1) * 30 +
      (1 - min (cell.interference / (1/2)) 1) * 20

/-- `RANEnvironment._calculate_cell_metrics`. -/
def calculate_cell_metrics (cell : Cell) : CellMetrics :=
  { throughput := cell.throughput,
    drop_rate := cell.drop_rate,
    power := cell.power_consumption,
    interference := cell.interference,
    user_satisfaction := calculate_satisfaction cell }

/-- `RANEnvironment._action_matches_recommendation`.  Every cell dict carries
the `optimized_action` / `optimized_power` keys, so the `.get` defaults never
fire. -/
def action_matches_recommendation (cell : Cell) : Bool :=
  if cell.optimized_action = "Reduce_Power" ∧ cell.optimized_power < cell.tx_power then
    true
  else if cell.optimized_action = "Increase_Power" ∧ cell.tx_power < cell.optimized_power then
    true
  else if cell.optimized_action = "Maintain_Power" ∧
      |cell.tx_power - cell.optimized_power| < 3 then
    true
  else false

/-- `RANEnvironment._calculate_reward` (the `use_real_data` flag gates the
recommendation bonus; `'optimized_action' in cell` is always true). -/
def calculate_reward (use_real_data : Bool) (old_metrics new_metrics : CellMetrics)
    (cell : Cell) : ℚ :=
  let reward : ℚ := 0
  let reward := reward + (new_metrics.throughput - old_metrics.throughput) * (1/10)
  let reward := reward + (old_metrics.drop_rate - new_metrics.drop_rate) * 100
  let reward := reward + (old_metrics.power - new_metrics.power) * (1/5)
  let reward := reward + (old_metrics.interference - new_metrics.interference) * 10
  let reward := reward +
    (new_metrics.user_satisfaction - old_metrics.user_satisfaction) * (1/2)
  let reward :=
    if use_real_data ∧ action_matches_recommendation cell then reward + 2 else reward
  let reward := if 2/25 < new_metrics.drop_rate then reward - 10 else reward
  let reward := if new_metrics.throughput < 30 then reward - 5 else reward
  reward

/-- The mutable state of a `RANEnvironment` instance (fields of `self` the core
loop reads and writes). -/
structure EnvState where
  num_cells : ℕ
  use_real_data : Bool
  cells : List Cell
  current_cell_idx : ℕ
  episode_step : ℕ
  episode_count : ℕ
deriving DecidableEq, Repr

/-- The clamped-delta update `RANEnvironment.step` applies to the targeted
cell before `_simulate_changes` (the three `np.clip` assignments). -/
def apply_changes (cell : Cell) (changes : ActionChanges) : Cell :=
  { cell with
      tx_power := clip (cell.tx_power + changes.power) 10 50,
      antenna_tilt := clip (cell.antenna_tilt + changes.tilt) 0 10,
      handover_threshold := clip (cell.handover_threshold + changes.handover) 50 90 }

/-- The full transformation `RANEnvironment.step` applies to the targeted cell:
clamped deltas followed by the simulated stochastic effects. -/
def step_cell (env : EnvState) (action : ℕ) (noise : StepNoise) : Cell :=
  simulate_changes
    (apply_changes (env.cells.getD env.current_cell_idx default) (decode_action action))
    (decode_action action) noise

/-- `RANEnvironment.step`: clamp the decoded deltas into the targeted cell,
simulate the stochastic effects, compute the reward, advance the round-robin
pointer and the step counter, and report `done = (episode_step >= 100)`.
Returns `(new state, reward, done)`; the observation and `info` dict are
recomputed views of the state. -/
def step (env : EnvState) (action : ℕ) (noise : StepNoise) : EnvState × ℚ × Bool :=
  let i := env.current_cell_idx
  let old_metrics := calculate_cell_metrics (env.cells.getD i default)
  let cell := step_cell env action noise
  let new_metrics := calculate_cell_metrics cell
  let reward := calculate_reward env.use_real_data old_metrics new_metrics cell
  let env' :=
    { env with
        cells := env.cells.set i cell,
        current_cell_idx := (i + 1) % env.num_cells,
        episode_step := env.episode_step + 1 }
  (env', reward, decide (100 ≤ env'.episode_step))

/-- Iterate `step`, the `n`-th call taking action `(plan n).1` with draws
`(plan n).2` (calls are numbered from 0 here). -/
def run_steps (env : EnvState) (plan : ℕ → ℕ × StepNoise) : ℕ → EnvState
  | 0 => env
  | n + 1 => (step (run_steps env plan n) (plan n).1 (plan n).2).1

/-- One cell built by `RANEnvironment._reset_simulated`; `d 0, …, d 6` are the
seven random draws the loop body consumes for this cell, in program order
(`randint(50,500)`, `uniform(20,100)`, `uniform(0,0.1)`, `uniform(0,0.3)`,
`uniform(10,50)`, `uniform(10,30)`, `uniform(70,100)`).  `power_consumption`
is first set to `0.0` and then recomputed as `tx_power * 0.5`. -/
def reset_simulated_cell (i : ℕ) (d : ℕ → ℚ) : Cell :=
  let cell : Cell :=
    { id := i, cell_type := "Macro", tx_power := 40, antenna_tilt := 3,
      handover_threshold := 70, num_users := py_int (d 0), throughput := d 1,
      drop_rate := d 2, power_consumption := 0, interference := d 3,
      latency := d 4, snr := d 5, qos_satisfaction := d 6, frequency := 7/2,
      bandwidth := 100, optimized_action := "Maintain_Power", optimized_power := 40 }
  { cell with power_consumption := cell.tx_power * (1/2) }

/-- `RANEnvironment._reset_simulated`: the cell list it builds.  `draw` is the
process-global numpy RNG modelled as the stream of values it will produce;
cell `i` consumes draws `7*i … 7*i+6`. -/
def reset_simulated (num_cells : ℕ) (draw : ℕ → ℚ) : List Cell :=
  (List.range num_cells).map fun i => reset_simulated_cell i (fun k => draw (7 * i + k))

/-- `RANEnvironment.reset` in simulated mode (`use_real_data=False` or no data
loader): repopulates the cells from `_reset_simulated`, bumps the episode
counter and zeroes the cell pointer and step counter.  The environment's
`random_seed` field is a parameter here because it is in scope in the source,
but the simulated path never reads it: the draws come from the unseeded
process-global numpy RNG. -/
def reset_env_sim (random_seed : Option ℤ) (env : EnvState) (draw : ℕ → ℚ) : EnvState :=
  let _ := random_seed
  { env with
      cells := reset_simulated env.num_cells draw,
      episode_count := env.episode_count + 1,
      current_cell_idx := 0,
      episode_step := 0 }

/-- One record of `data_loader.sample_network_state`'s result, i.e. the dict
built by `NetworkDataLoader.get_cell_metrics` (all keys always present, so the
`.get` defaults in `_reset_from_real_data` never fire). -/
structure RealCellRecord where
  cell_type : String
  tx_power : ℚ
  antenna_tilt : ℚ
  handover_threshold : ℚ
  num_users : ℤ
  throughput : ℚ
  drop_rate : ℚ
  power_consumption : ℚ
  interference : ℚ
  latency : ℚ
  snr : ℚ
  qos_satisfaction : ℚ
  frequency : ℚ
  bandwidth : ℚ
  optimized_action : String
  optimized_power : ℚ
deriving DecidableEq, Repr

/-- `RANEnvironment._reset_from_real_data`: the cell list it builds from the
sampled records.  Note `power_consumption` is copied from the record
(`real_cell['power_consumption']`, the CSV's `Power_Consumption_Watt` column),
not derived from `tx_power`. -/
def reset_from_real_data (real_cells : List RealCellRecord) : List Cell :=
  (real_cells.enum).map fun p =>
    { id := p.1, cell_type := p.2.cell_type, tx_power := p.2.tx_power,
      antenna_tilt := p.2.antenna_tilt, handover_threshold := p.2.handover_threshold,
      num_users := p.2.num_users, throughput := p.2.throughput,
      drop_rate := p.2.drop_rate, power_consumption := p.2.power_consumption,
      interference := p.2.interference, latency := p.2.latency, snr := p.2.snr,
      qos_satisfaction := p.2.qos_satisfaction, frequency := p.2.frequency,
      bandwidth := p.2.bandwidth, optimized_action := p.2.optimized_action,
      optimized_power := p.2.optimized_power }

/-- `torch.relu` on one coordinate. -/
def relu (x : ℚ) : ℚ := max x 0

/-- Dot product of a weight row with an input vector. -/
def dot (row x : List ℚ) : ℚ := ((row.zip x).map fun p => p.1 * p.2).sum

/-- One `nn.Linear` layer: `W·x + b`, one output per weight row. -/
def linear_layer (w : List (List ℚ)) (b : List ℚ) (x : List ℚ) : List ℚ :=
  (w.zip b).map fun p => dot p.1 x + p.2

/-- The parameters of `DQNetwork` (`fc1 … fc4`): weight matrix and bias vector
per layer. -/
structure DQNetwork where
  fc1_w : List (List ℚ)
  fc1_b : List ℚ
  fc2_w : List (List ℚ)
  fc2_b : List ℚ
  fc3_w : List (List ℚ)
  fc3_b : List ℚ
  fc4_w : List (List ℚ)
  fc4_b : List ℚ
deriving DecidableEq, Repr

/-- `DQNetwork.forward`: three ReLU layers followed by the linear output
layer, producing one Q-value per action. -/
def forward (net : DQNetwork) (state : List ℚ) : List ℚ :=
  let x := (linear_layer net.fc1_w net.fc1_b state).map relu
  let x := (linear_layer net.fc2_w net.fc2_b x).map relu
  let x := (linear_layer net.fc3_w net.fc3_b x).map relu
  linear_layer net.fc4_w net.fc4_b x

/-- Index of the first maximal entry (`torch.argmax` over the Q-values). -/
def argmax_idx (l : List ℚ) : ℕ :=
  (l.foldl
    (fun acc q =>
      let best := acc.1
      let best_val := acc.2.1
      let idx := acc.2.2
      if best_val < q then (idx, q, idx + 1) else (best, best_val, idx + 1))
    (0, l.headD 0, 0)).1

/-- One experience tuple `(state, action, reward, next_state, done)` as stored
by `RANOptimizationAgent.remember`. -/
structure Experience where
  state : List ℚ
  action : ℕ
  reward : ℚ
  next_state : List ℚ
  done : Bool
deriving DecidableEq, Repr

/-- Internal state of the Adam optimizer over the online parameters
(per-parameter moment estimates and a step counter).  Its contents are never
inspected by the properties below; `replay` threads it through the abstracted
gradient step. -/
structure OptState where
  moments : List ℚ
  step_count : ℕ
deriving DecidableEq, Repr

/-- The mutable fields of a `RANOptimizationAgent` and its hyperparameters
(values fixed in `__init__`). -/
structure AgentState where
  state_size : ℕ
  action_size : ℕ
  gamma : ℚ
  epsilon : ℚ
  epsilon_min : ℚ
  epsilon_decay : ℚ
  learning_rate : ℚ
  batch_size : ℕ
  memory_size : ℕ
  memory : List Experience
  q_network : DQNetwork
  target_network : DQNetwork
  opt_state : OptState
deriving DecidableEq, Repr

/-- `RANOptimizationAgent.update_target_network`: hard copy of the online
parameters into the target network. -/
def update_target_network (a : AgentState) : AgentState :=
  { a with target_network := a.q_network }

/-- `RANOptimizationAgent.__init__` with the default hyperparameters: fresh
empty memory, `epsilon = 1.0`, floor `0.01`, decay `0.995`, batch 64, capacity
10000; both networks are created and `update_target_network()` is called, so
the target starts as a copy of the online network. -/
def init_agent (state_size action_size : ℕ) (q : DQNetwork) (opt : OptState) :
    AgentState :=
  update_target_network
    { state_size := state_size, action_size := action_size, gamma := 99/100,
      epsilon := 1, epsilon_min := 1/100, epsilon_decay := 199/200,
      learning_rate := 1/1000, batch_size := 64, memory_size := 10000,
      memory := [], q_network := q, target_network := q, opt_state := opt }

/-- `collections.deque(maxlen=cap).append`: append on the right, evict from
the left when over capacity. -/
def push_bounded (l : List Experience) (cap : ℕ) (e : Experience) : List Experience :=
  let l' := l ++ [e]
  if cap < l'.length then l'.drop (l'.length - cap) else l'

/-- `RANOptimizationAgent.remember`. -/
def remember (a : AgentState) (e : Experience) : AgentState :=
  { a with memory := push_bounded a.memory a.memory_size e }

/-- `RANOptimizationAgent.act`: with probability `epsilon` (the draw
`rand_draw` of `np.random.rand()`) in training mode return the random action
`rand_action`, otherwise the argmax of the online network's Q-values.  The
agent's own state is not modified. -/
def act (a : AgentState) (state : List ℚ) (training : Bool) (rand_draw : ℚ)
    (rand_action : ℕ) : ℕ :=
  if training ∧ rand_draw ≤ a.epsilon then rand_action
  else argmax_idx (forward a.q_network state)

/-- The shape of one gradient update in `replay`: from the online network, the
target network (read only, used for the TD targets), the optimizer state and
the sampled batch, produce the updated online network, the updated optimizer
state and the loss value.  The numeric content of backpropagation is
abstracted as this function argument; every property below holds for an
arbitrary `TrainStep`. -/
def TrainStep : Type :=
  DQNetwork → DQNetwork → OptState → List Experience → DQNetwork × OptState × ℚ

/-- `RANOptimizationAgent.replay`: `None` (no mutation at all) when the buffer
holds fewer than `batch_size` experiences; otherwise sample a batch (`sample`
models `random.sample(memory, batch_size)`), take one gradient step on the
online network and the optimizer state, then decay epsilon — but only when it
is still above the floor. -/
def replay (train_step : TrainStep) (sample : List Experience → List Experience)
    (a : AgentState) : AgentState × Option ℚ :=
  if a.memory.length < a.batch_size then (a, none)
  else
    let batch := sample a.memory
    let r := train_step a.q_network a.target_network a.opt_state batch
    let a' := { a with q_network := r.1, opt_state := r.2.1 }
    let a'' :=
      if a.epsilon_min < a.epsilon then { a' with epsilon := a.epsilon * a.epsilon_decay }
      else a'
    (a'', some r.2.2)

/-- One call the training loop can make on the agent between two
`update_target_network()` calls. -/
inductive AgentOp where
  | remember_op (e : Experience)
  | act_op (state : List ℚ) (training : Bool) (rand_draw : ℚ) (rand_action : ℕ)
  | replay_op (train_step : TrainStep) (sample : List Experience → List Experience)

/-- Effect of one call on the agent state (`act` returns an action and leaves
the state untouched). -/
def apply_op (a : AgentState) : AgentOp → AgentState
  | .remember_op e => remember a e
  | .act_op s t d r => let _ := act a s t d r; a
  | .replay_op ts smp => (replay ts smp a).1

/-- Effect of a sequence of calls, oldest first. -/
def apply_ops (ops : List AgentOp) (a : AgentState) : AgentState :=
  ops.foldl apply_op a

/-- The per-group aggregate metric dict built by
`ABTestingSystem._measure_group_performance`. -/
structure GroupMetrics where
  avg_throughput : ℚ
  avg_drop_rate : ℚ
  total_power : ℚ
  avg_satisfaction : ℚ
deriving DecidableEq, Repr

/-- The per-metric improvement dict of `_analyze_results` (keys in insertion
order: throughput, drop_rate, satisfaction, power). -/
structure Improvement where
  throughput : ℚ
  drop_rate : ℚ
  satisfaction : ℚ
  power : ℚ
deriving DecidableEq, Repr

/-- The fields of `TestResult` that `_analyze_results` computes from the
metrics (`test_id` and `timestamp` are wall-clock strings, omitted). -/
structure ABTestResult where
  group_a_metrics : GroupMetrics
  group_b_metrics : GroupMetrics
  improvement : Improvement
  is_significant : Bool
  confidence : ℚ
  recommendation : String
deriving DecidableEq, Repr

/-- `ABTestingSystem._analyze_results`, translated statement by statement. -/
def analyze_results (initial_a final_a initial_b final_b : GroupMetrics) :
    ABTestResult :=
  let improvement_a : Improvement :=
    { throughput := (final_a.avg_throughput - initial_a.avg_throughput) /
        initial_a.avg_throughput * 100,
      drop_rate := (initial_a.avg_drop_rate - final_a.avg_drop_rate) /
        initial_a.avg_drop_rate * 100,
      satisfaction := (final_a.avg_satisfaction - initial_a.avg_satisfaction) /
        initial_a.avg_satisfaction * 100,
      power := (initial_a.total_power - final_a.total_power) /
        initial_a.total_power * 100 }
  let improvement_b : Improvement :=
    { throughput := (final_b.avg_throughput - initial_b.avg_throughput) /
        initial_b.avg_throughput * 100,
      drop_rate := (initial_b.avg_drop_rate - final_b.avg_drop_rate) /
        initial_b.avg_drop_rate * 100,
      satisfaction := (final_b.avg_satisfaction - initial_b.avg_satisfaction) /
        initial_b.avg_satisfaction * 100,
      power := (initial_b.total_power - final_b.total_power) /
        initial_b.total_power * 100 }
  let relative_improvement : Improvement :=
    { throughput := improvement_a.throughput - improvement_b.throughput,
      drop_rate := improvement_a.drop_rate - improvement_b.drop_rate,
      satisfaction := improvement_a.satisfaction - improvement_b.satisfaction,
      power := improvement_a.power - improvement_b.power }
  let avg_relative_improvement :=
    (relative_improvement.throughput + relative_improvement.drop_rate +
      relative_improvement.satisfaction + relative_improvement.power) / 4
  let is_significant := decide (5 < |avg_relative_improvement|)
  let confidence := min (|avg_relative_improvement| / 10 * 100) 99
  let recommendation :=
    if is_significant ∧ 0 < avg_relative_improvement then
      "EXCELLENT! Apply changes to entire network"
    else if 0 < avg_relative_improvement then
      "WARNING: Slight improvement, apply with caution"
    else
      "FAIL: Do not apply - changes are not beneficial"
  { group_a_metrics := final_a, group_b_metrics := final_b,
    improvement := relative_improvement, is_significant := is_significant,
    confidence := confidence, recommendation := recommendation }

/-- The spec's direction-aware per-metric improvement for one group
(`(after-before)/before × 100`, with drop rate and power flipped to
`(before-after)/before × 100`). -/
def spec_group_improvement (before after : GroupMetrics) : Improvement :=
  { throughput := (after.avg_throughput - before.avg_throughput) /
      before.avg_throughput * 100,
    drop_rate := (before.avg_drop_rate - after.avg_drop_rate) /
      before.avg_drop_rate * 100,
    satisfaction := (after.avg_satisfaction - before.avg_satisfaction) /
      before.avg_satisfaction * 100,
    power := (before.total_power - after.total_power) / before.total_power * 100 }

/-- The spec's per-metric relative improvement: `improvement_A − improvement_B`
per metric. -/
def spec_relative_improvement (initial_a final_a initial_b final_b : GroupMetrics) :
    Improvement :=
  let ia := spec_group_improvement initial_a final_a
  let ib := spec_group_improvement initial_b final_b
  { throughput := ia.throughput - ib.throughput,
    drop_rate := ia.drop_rate - ib.drop_rate,
    satisfaction := ia.satisfaction - ib.satisfaction,
    power := ia.power - ib.power }

/-- The mean over the four metrics of the spec's relative improvement. -/
def spec_mean_relative_improvement
    (initial_a final_a initial_b final_b : GroupMetrics) : ℚ :=
  let r := spec_relative_improvement initial_a final_a initial_b final_b
  (r.throughput + r.drop_rate + r.satisfaction + r.power) / 4

/-- The spec's categorical recommendation. -/
inductive Recommendation where
  | adopt
  | caution
  | reject
deriving DecidableEq, Repr

/-- The spec's recommendation rule: adopt iff significant and positive mean,
caution iff positive but not significant, reject otherwise. -/
def spec_recommendation (mean : ℚ) (significant : Bool) : Recommendation :=
  if significant ∧ 0 < mean then .adopt
  else if 0 < mean then .caution
  else .reject

/-- The recommendation strings the source emits, keyed by category. -/
def recommendation_string : Recommendation → String
  | .adopt => "EXCELLENT! Apply changes to entire network"
  | .caution => "WARNING: Slight improvement, apply with caution"
  | .reject => "FAIL: Do not apply - changes are not beneficial"

/-- The spec's bound invariants on one cell: `tx_power ∈ [10,50]`,
`antenna_tilt ∈ [0,10]`, `handover_threshold ∈ [50,90]`, `drop_rate ∈ [0,0.15]`. -/
def cell_in_bounds (c : Cell) : Prop :=
  10 ≤ c.tx_power ∧ c.tx_power ≤ 50 ∧
    0 ≤ c.antenna_tilt ∧ c.antenna_tilt ≤ 10 ∧
    50 ≤ c.handover_threshold ∧ c.handover_threshold ≤ 90 ∧
    0 ≤ c.drop_rate ∧ c.drop_rate ≤ 3/20

instance (c : Cell) : Decidable (cell_in_bounds c) := by
  unfold cell_in_bounds; infer_instance

/-- The spec's derived-field invariant: `power_consumption = tx_power × 0.5`. -/
def power_consumption_inv (c : Cell) : Prop :=
  c.power_consumption = c.tx_power * (1/2)

instance (c : Cell) : Decidable (power_consumption_inv c) := by
  unfold power_consumption_inv; infer_instance

/-- A fixed draw record for concrete step evaluations; every field lies in the
support of the distribution the corresponding source site samples from. -/
def demo_noise : StepNoise :=
  { power_up_throughput := 5, power_down_throughput := 2, tilt_throughput := 1,
    tilt_interference := 1/100, throughput_noise := 1, drop_noise := 1/1000 }

/-- A two-cell simulated-mode environment whose second cell carries an
out-of-range `tx_power` of 100 dBm while the pointer targets cell 0. -/
def demo_env_bad : EnvState :=
  { num_cells := 2, use_real_data := false,
    cells := [default, { (default : Cell) with id := 1, tx_power := 100 }],
    current_cell_idx := 0, episode_step := 0, episode_count := 1 }

/-- A one-cell simulated-mode environment in its default (in-bounds) state. -/
def demo_env_ok : EnvState :=
  { num_cells := 1, use_real_data := false, cells := [default],
    current_cell_idx := 0, episode_step := 0, episode_count := 1 }

/-- An environment shell with `num_cells = 10` awaiting its first reset. -/
def demo_env10 : EnvState :=
  { num_cells := 10, use_real_data := false, cells := [],
    current_cell_idx := 0, episode_step := 0, episode_count := 0 }

/-- A sampled real-data record in the shape `NetworkDataLoader.get_cell_metrics`
produces: the CSV's `Power_Consumption_Watt` aggregate (30 W) is unrelated to
`Transmission_Power_dBm` (40 dBm). -/
def demo_real_record : RealCellRecord :=
  { cell_type := "Macro", tx_power := 40, antenna_tilt := 3,
    handover_threshold := 70, num_users := 200, throughput := 120,
    drop_rate := 1/50, power_consumption := 30, interference := 1/5,
    latency := 15, snr := 20, qos_satisfaction := 80, frequency := 7/2,
    bandwidth := 100, optimized_action := "Maintain_Power", optimized_power := 40 }

/-- A degenerate network for concrete agent evaluations. -/
def net0 : DQNetwork :=
  { fc1_w := [[1]], fc1_b := [0], fc2_w := [[1]], fc2_b := [0],
    fc3_w := [[1]], fc3_b := [0], fc4_w := [[1]], fc4_b := [0] }

/-- A fresh optimizer state. -/
def opt0 : OptState := { moments := [], step_count := 0 }

/-- A trivial experience tuple. -/
def dummy_exp : Experience :=
  { state := [0], action := 0, reward := 0, next_state := [0], done := false }

/-- A gradient step that leaves the online network and optimizer unchanged and
reports zero loss (one admissible instantiation of the abstracted update). -/
def trivial_train_step : TrainStep := fun q _ o _ => (q, o, 0)

/-- C1: for every action index `a` in `[0,26]`, `_decode_action` yields a delta
triple; re-encoding the triple returns `a`; the map is injective on `[0,26]`
and every triple of the product `[-3,0,3] × [-2,0,2] × [-5,0,5]` is hit, so the
encoding is a bijection between `[0,26]` and the 27 delta triples. -/
theorem decode_action_bijection :
    (∀ a : Fin 27, encode_changes (decode_action a.val) = a.val) ∧
    (∀ a b : Fin 27,
      decode_action a.val = decode_action b.val → a = b) ∧
    (∀ p ∈ power_changes, ∀ t ∈ tilt_changes,
      ∀ h ∈ handover_changes,
        ∃ a : Fin 27, decode_action a.val = ⟨p, t, h⟩) := by
  refine ⟨by decide, by decide, by decide⟩

/-- C1 witness: re-encoding at the concrete index 13, and surjectivity at the
concrete triple `(-3, 0, 5)`. -/
theorem decode_action_bijection_witness :
    encode_changes (decode_action (13 : Fin 27).val) = 13 ∧
    ∃ a : Fin 27, decode_action a.val = ⟨-3, 0, 5⟩ :=
  ⟨decode_action_bijection.1 13,
   decode_action_bijection.2.2 (-3) (by decide) 0 (by decide) 5 (by decide)⟩

theorem le_clip {x lo hi : ℚ} (h : lo ≤ hi) : lo ≤ clip x lo hi :=
  le_min (le_max_right x lo) h

theorem clip_le {x lo hi : ℚ} : clip x lo hi ≤ hi :=
  min_le_right _ _

theorem clip_eq_self {x lo hi : ℚ} (h1 : lo ≤ x) (h2 : x ≤ hi) : clip x lo hi = x := by
  unfold clip
  rw [max_eq_left h1, min_eq_left h2]

theorem getD_set_self {α : Type} {l : List α} {i : ℕ} {a d : α} (h : i < l.length) :
    (l.set i a).getD i d = a := by
  simp [List.getD, List.getElem?_set_eq_of_lt, h]

theorem getD_set_ne {α : Type} {l : List α} {i j : ℕ} {a d : α} (h : i ≠ j) :
    (l.set i a).getD j d = l.getD j d := by
  simp [List.getD, List.getElem?_set_ne h]

theorem simulate_changes_tx_power (c : Cell) (ch : ActionChanges) (n : StepNoise) :
    (simulate_changes c ch n).tx_power = c.tx_power := by
  simp only [simulate_changes]
  split_ifs <;> rfl

theorem simulate_changes_antenna_tilt (c : Cell) (ch : ActionChanges) (n : StepNoise) :
    (simulate_changes c ch n).antenna_tilt = c.antenna_tilt := by
  simp only [simulate_changes]
  split_ifs <;> rfl

theorem simulate_changes_handover_threshold (c : Cell) (ch : ActionChanges) (n : StepNoise) :
    (simulate_changes c ch n).handover_threshold = c.handover_threshold := by
  simp only [simulate_changes]
  split_ifs <;> rfl

theorem simulate_changes_drop_rate_nonneg (c : Cell) (ch : ActionChanges) (n : StepNoise) :
    0 ≤ (simulate_changes c ch n).drop_rate := by
  simp only [simulate_changes]
  exact le_clip (by norm_num)

theorem simulate_changes_drop_rate_le (c : Cell) (ch : ActionChanges) (n : StepNoise) :
    (simulate_changes c ch n).drop_rate ≤ 3/20 := by
  simp only [simulate_changes]
  exact clip_le

theorem simulate_changes_power_consumption (c : Cell) (ch : ActionChanges) (n : StepNoise) :
    (simulate_changes c ch n).power_consumption =
      if 0 < ch.power then c.tx_power * (1/2)
      else if ch.power < 0 then c.tx_power * (1/2)
      else c.power_consumption := by
  simp only [simulate_changes]
  split_ifs <;> rfl

theorem step_fst_cells (env : EnvState) (action : ℕ) (noise : StepNoise) :
    (step env action noise).1.cells =
      env.cells.set env.current_cell_idx (step_cell env action noise) := rfl

theorem step_fst_episode (env : EnvState) (action : ℕ) (noise : StepNoise) :
    (step env action noise).1.episode_step = env.episode_step + 1 := rfl

theorem step_done (env : EnvState) (action : ℕ) (noise : StepNoise) :
    (step env action noise).2.2 = decide (100 ≤ env.episode_step + 1) := rfl

theorem step_cell_in_bounds (env : EnvState) (action : ℕ) (noise : StepNoise) :
    cell_in_bounds (step_cell env action noise) := by
  unfold step_cell cell_in_bounds
  refine ⟨?_, ?_, ?_, ?_, ?_, ?_, ?_, ?_⟩
  · rw [simulate_changes_tx_power]; exact le_clip (by norm_num)
  · rw [simulate_changes_tx_power]; exact clip_le
  · rw [simulate_changes_antenna_tilt]; exact le_clip (by norm_num)
  · rw [simulate_changes_antenna_tilt]; exact clip_le
  · rw [simulate_changes_handover_threshold]; exact le_clip (by norm_num)
  · rw [simulate_changes_handover_threshold]; exact clip_le
  · exact simulate_changes_drop_rate_nonneg _ _ _
  · exact simulate_changes_drop_rate_le _ _ _

/-- C2 (counterexample): the claim is false for an arbitrary prior state.  In
a two-cell network whose untargeted cell 1 starts with `tx_power = 100`, a
`step` targeting cell 0 leaves cell 1 at 100 dBm, outside `[10,50]`: the bound
invariants are not enforced on cells the step did not touch. -/
theorem step_bounds_claim_counterexample :
    ((step demo_env_bad 0 demo_noise).1.cells.getD 1 default).tx_power = 100 ∧
    ¬ cell_in_bounds ((step demo_env_bad 0 demo_noise).1.cells.getD 1 default) := by
  constructor
  · decide
  · decide

/-- C2 (amended): after any `step(action)` the targeted cell satisfies
`tx_power ∈ [10,50]`, `antenna_tilt ∈ [0,10]`, `handover_threshold ∈ [50,90]`,
`drop_rate ∈ [0,0.15]` unconditionally (every write is clamped), and every
other cell satisfies them provided it already did before the step; hence the
bounds hold for all cells along any run whose initial state satisfies them. -/
theorem step_preserves_cell_bounds (env : EnvState) (action : ℕ) (noise : StepNoise)
    (i : ℕ) (hi : i < env.cells.length)
    (h : i ≠ env.current_cell_idx → cell_in_bounds (env.cells.getD i default)) :
    cell_in_bounds ((step env action noise).1.cells.getD i default) := by
  rw [step_fst_cells]
  by_cases hii : i = env.current_cell_idx
  · subst hii
    rw [getD_set_self hi]
    exact step_cell_in_bounds env action noise
  · rw [getD_set_ne (fun hs => hii hs.symm)]
    exact h hii

/-- C2 witness: a concrete in-bounds one-cell environment stays in bounds
after a step. -/
theorem step_preserves_cell_bounds_witness :
    cell_in_bounds ((step demo_env_ok 5 demo_noise).1.cells.getD 0 default) :=
  step_preserves_cell_bounds demo_env_ok 5 demo_noise 0 (by decide)
    (fun hne => absurd rfl hne)

/-- C3 (counterexample): `_reset_from_real_data` copies `power_consumption`
from the sampled record (the CSV's `Power_Consumption_Watt`), so a record with
`power_consumption = 30` and `tx_power = 40` produces a cell violating
`power_consumption = tx_power × 0.5`. -/
theorem power_consumption_claim_counterexample :
    ((reset_from_real_data [demo_real_record]).getD 0 default).power_consumption = 30 ∧
    ((reset_from_real_data [demo_real_record]).getD 0 default).tx_power = 40 ∧
    ¬ power_consumption_inv ((reset_from_real_data [demo_real_record]).getD 0 default) := by
  refine ⟨by decide, by decide, fun hinv => ?_⟩
  have h1 : ((reset_from_real_data [demo_real_record]).getD 0 default).power_consumption
      = 30 := by decide
  have h2 : ((reset_from_real_data [demo_real_record]).getD 0 default).tx_power = 40 := by
    decide
  unfold power_consumption_inv at hinv
  rw [h1, h2] at hinv
  norm_num at hinv

/-- C3 (amended): in simulated mode the invariant holds: every cell built by
`_reset_simulated` satisfies `power_consumption = tx_power × 0.5`, and every
`step` preserves the invariant on every cell (for the targeted cell it is
re-established whenever the power delta is nonzero, and preserved when the
delta is zero given `tx_power ∈ [10,50]`).  In real-data mode
`_reset_from_real_data` instead sets `power_consumption` from the data record,
independently of `tx_power`. -/
theorem power_consumption_inv_simulated :
    (∀ (n : ℕ) (d : ℕ → ℚ), ∀ c ∈ reset_simulated n d, power_consumption_inv c) ∧
    (∀ (env : EnvState) (action : ℕ) (noise : StepNoise) (i : ℕ),
        i < env.cells.length →
        power_consumption_inv (env.cells.getD i default) →
        10 ≤ (env.cells.getD i default).tx_power →
        (env.cells.getD i default).tx_power ≤ 50 →
        power_consumption_inv ((step env action noise).1.cells.getD i default)) := by
  constructor
  · intro n d c hc
    rcases List.mem_map.1 hc with ⟨j, _, rfl⟩
    rfl
  · intro env action noise i hi hpc h10 h50
    rw [step_fst_cells]
    by_cases hii : i = env.current_cell_idx
    · subst hii
      rw [getD_set_self hi]
      unfold power_consumption_inv step_cell
      rw [simulate_changes_power_consumption, simulate_changes_tx_power]
      split_ifs with h1 h2
      · rfl
      · rfl
      · have hp0 : (decode_action action).power = 0 :=
          le_antisymm (not_lt.1 h1) (not_lt.1 h2)
        have htx : (apply_changes (env.cells.getD env.current_cell_idx default)
            (decode_action action)).tx_power =
            (env.cells.getD env.current_cell_idx default).tx_power := by
          show clip _ 10 50 = _
          rw [hp0, add_zero]
          exact clip_eq_self h10 h50
        rw [htx]
        exact hpc
    · rw [getD_set_ne (fun hs => hii hs.symm)]
      exact hpc

theorem default_cell_pc_inv : power_consumption_inv (default : Cell) := by
  show (20 : ℚ) = 40 * (1/2)
  norm_num

/-- C3 witness: the invariant evaluated on a concrete simulated reset and on a
concrete step. -/
theorem power_consumption_inv_simulated_witness :
    power_consumption_inv (reset_simulated_cell 0 (fun _ => (60 : ℚ))) ∧
    power_consumption_inv ((step demo_env_ok 0 demo_noise).1.cells.getD 0 default) :=
  ⟨power_consumption_inv_simulated.1 1 (fun _ => 60) _
      (List.mem_map.2 ⟨0, by decide, rfl⟩),
   power_consumption_inv_simulated.2 demo_env_ok 0 demo_noise 0 (by decide)
     default_cell_pc_inv (by decide) (by decide)⟩

theorem apply_changes_zero (c : Cell)
    (h1 : 10 ≤ c.tx_power) (h2 : c.tx_power ≤ 50)
    (h3 : 0 ≤ c.antenna_tilt) (h4 : c.antenna_tilt ≤ 10)
    (h5 : 50 ≤ c.handover_threshold) (h6 : c.handover_threshold ≤ 90) :
    apply_changes c ⟨0, 0, 0⟩ = c := by
  unfold apply_changes
  rw [add_zero, add_zero, add_zero, clip_eq_self h1 h2, clip_eq_self h3 h4,
    clip_eq_self h5 h6]

theorem simulate_changes_zero (c : Cell) (n : StepNoise) :
    simulate_changes c ⟨0, 0, 0⟩ n =
      { c with throughput := clip (c.throughput + n.throughput_noise) 10 1000,
               drop_rate := clip (c.drop_rate + n.drop_noise) 0 (3/20),
               interference := clip c.interference 0 1,
               num_users := max 1 c.num_users } := by
  simp only [simulate_changes]
  norm_num

/-- C4 (confirmed): on a cell satisfying the data model's field ranges, the
zero-delta action 13 (deltas `(0,0,0)`) leaves `tx_power`, `antenna_tilt`,
`handover_threshold` (and `power_consumption`, `interference`, `num_users`)
unchanged; only `throughput` and `drop_rate` drift, by exactly the noise draw
(at most ±2 resp. ±0.005 before clipping) followed by the range clip. -/
theorem step_zero_delta_action_frame (env : EnvState) (noise : StepNoise)
    (hlen : env.current_cell_idx < env.cells.length)
    (hb : cell_in_bounds (env.cells.getD env.current_cell_idx default))
    (hint0 : 0 ≤ (env.cells.getD env.current_cell_idx default).interference)
    (hint1 : (env.cells.getD env.current_cell_idx default).interference ≤ 1)
    (husers : 1 ≤ (env.cells.getD env.current_cell_idx default).num_users)
    (htn : |noise.throughput_noise| ≤ 2)
    (hdn : |noise.drop_noise| ≤ 1/200) :
    ((step env 13 noise).1.cells.getD env.current_cell_idx default).tx_power =
        (env.cells.getD env.current_cell_idx default).tx_power ∧
    ((step env 13 noise).1.cells.getD env.current_cell_idx default).antenna_tilt =
        (env.cells.getD env.current_cell_idx default).antenna_tilt ∧
    ((step env 13 noise).1.cells.getD env.current_cell_idx default).handover_threshold =
        (env.cells.getD env.current_cell_idx default).handover_threshold ∧
    ((step env 13 noise).1.cells.getD env.current_cell_idx default).power_consumption =
        (env.cells.getD env.current_cell_idx default).power_consumption ∧
    ((step env 13 noise).1.cells.getD env.current_cell_idx default).interference =
        (env.cells.getD env.current_cell_idx default).interference ∧
    ((step env 13 noise).1.cells.getD env.current_cell_idx default).num_users =
        (env.cells.getD env.current_cell_idx default).num_users ∧
    ((step env 13 noise).1.cells.getD env.current_cell_idx default).throughput =
        clip ((env.cells.getD env.current_cell_idx default).throughput +
          noise.throughput_noise) 10 1000 ∧
    ((step env 13 noise).1.cells.getD env.current_cell_idx default).drop_rate =
        clip ((env.cells.getD env.current_cell_idx default).drop_rate +
          noise.drop_noise) 0 (3/20) := by
  obtain ⟨h1, h2, h3, h4, h5, h6, _, _⟩ := hb
  have hstep : (step env 13 noise).1.cells.getD env.current_cell_idx default =
      step_cell env 13 noise := by
    rw [step_fst_cells, getD_set_self hlen]
  have hdec : decode_action 13 = ⟨0, 0, 0⟩ := rfl
  have hcell : step_cell env 13 noise =
      simulate_changes (env.cells.getD env.current_cell_idx default) ⟨0, 0, 0⟩ noise := by
    unfold step_cell
    rw [hdec, apply_changes_zero _ h1 h2 h3 h4 h5 h6]
  rw [hstep, hcell, simulate_changes_zero]
  refine ⟨rfl, rfl, rfl, rfl, ?_, ?_, rfl, rfl⟩
  · exact clip_eq_self hint0 hint1
  · exact max_eq_right husers

theorem demo_env_ok_cell_bounds : cell_in_bounds (demo_env_ok.cells.getD 0 default) := by
  show (10 : ℚ) ≤ 40 ∧ (40 : ℚ) ≤ 50 ∧ (0 : ℚ) ≤ 3 ∧ (3 : ℚ) ≤ 10 ∧
    (50 : ℚ) ≤ 70 ∧ (70 : ℚ) ≤ 90 ∧ (0 : ℚ) ≤ 1/20 ∧ (1 : ℚ)/20 ≤ 3/20
  norm_num

/-- C4 witness: the frame property evaluated on a concrete environment and
noise draw. -/
theorem step_zero_delta_action_frame_witness :
    ((step demo_env_ok 13 demo_noise).1.cells.getD 0 default).tx_power =
      (demo_env_ok.cells.getD 0 default).tx_power :=
  (step_zero_delta_action_frame demo_env_ok demo_noise (by decide)
      demo_env_ok_cell_bounds (show (0 : ℚ) ≤ 1/10 by norm_num)
      (show (1 : ℚ)/10 ≤ 1 by norm_num) (by decide)
      (show |(1 : ℚ)| ≤ 2 by norm_num)
      (show |(1 : ℚ)/1000| ≤ 1/200 by rw [abs_le]; constructor <;> norm_num)).1

theorem run_steps_episode_step (env : EnvState) (plan : ℕ → ℕ × StepNoise) (n : ℕ) :
    (run_steps env plan n).episode_step = env.episode_step + n := by
  induction n with
  | zero => rfl
  | succ k ih =>
    show (step (run_steps env plan k) (plan k).1 (plan k).2).1.episode_step = _
    rw [step_fst_episode, ih]
    omega

/-- C6 (confirmed): from a fresh simulated `reset()` (step counter 0), the
`(k+1)`-th `step` call returns `done = true` exactly when `k + 1 ≥ 100`,
whatever the actions and draws: the first 99 calls return `False` and the
100th returns `True`; termination depends only on the counter reaching the
fixed horizon 100. -/
theorem episode_terminates_at_step_100 (seed : Option ℤ) (env : EnvState)
    (draw : ℕ → ℚ) (plan : ℕ → ℕ × StepNoise) (k : ℕ) :
    (step (run_steps (reset_env_sim seed env draw) plan k) (plan k).1 (plan k).2).2.2 =
      decide (100 ≤ k + 1) := by
  rw [step_done, run_steps_episode_step]
  norm_num [reset_env_sim]

/-- C9 (code bug): `reset()` in simulated mode is not a function of the seed.
The `random_seed` attribute is ignored by `_reset_simulated` (only the
real-data path seeds numpy), so the outcome depends solely on the state of the
process-global RNG stream: with the same seed 42 and network size 10, two
resets whose global RNG streams differ produce different initial cell states,
contradicting the documented seeded reproducibility. -/
theorem reset_simulated_ignores_seed :
    (∀ (s s' : Option ℤ) (env : EnvState) (d : ℕ → ℚ),
        reset_env_sim s env d = reset_env_sim s' env d) ∧
    reset_env_sim (some 42) demo_env10 (fun _ => 60) ≠
      reset_env_sim (some 42) demo_env10 (fun _ => 70) := by
  constructor
  · intro s s' env d
    rfl
  · decide

theorem apply_op_target_network (a : AgentState) (op : AgentOp) :
    (apply_op a op).target_network = a.target_network := by
  cases op with
  | remember_op e => rfl
  | act_op s t d r => rfl
  | replay_op ts smp =>
    simp only [apply_op, replay]
    split_ifs <;> rfl

theorem apply_ops_target_network (ops : List AgentOp) (a : AgentState) :
    (apply_ops ops a).target_network = a.target_network := by
  induction ops generalizing a with
  | nil => rfl
  | cons op rest ih =>
    show (apply_ops rest (apply_op a op)).target_network = _
    rw [ih, apply_op_target_network]

/-- C5 (confirmed): the two networks are created together (the constructor
syncs them), immediately after `update_target_network()` the target network
computes the same Q-values as the online network on every observation, and no
sequence of `remember` / `act` / `replay` calls (for any gradient update and
batch selection) ever modifies the target parameters before the next sync. -/
theorem update_target_network_sync (ss as : ℕ) (q : DQNetwork) (opt : OptState)
    (a : AgentState) (ops : List AgentOp) (x : List ℚ) :
    (init_agent ss as q opt).target_network = (init_agent ss as q opt).q_network ∧
    forward (update_target_network a).target_network x =
      forward (update_target_network a).q_network x ∧
    (apply_ops ops (update_target_network a)).target_network =
      (update_target_network a).target_network :=
  ⟨rfl, rfl, apply_ops_target_network ops _⟩

/-- C7 (confirmed): with fewer than `batch_size` stored experiences, `replay`
returns `None` and leaves the whole agent state (networks, optimizer state,
buffer, epsilon) unchanged; and whenever a `replay` call changes epsilon it
returned `Some loss`, i.e. a training step actually occurred. -/
theorem replay_underfilled_noop (ts : TrainStep)
    (smp : List Experience → List Experience) (a : AgentState) :
    (a.memory.length < a.batch_size → replay ts smp a = (a, none)) ∧
    ((replay ts smp a).1.epsilon ≠ a.epsilon → ((replay ts smp a).2).isSome = true) := by
  constructor
  · intro h
    simp only [replay, if_pos h]
  · intro hne
    by_cases h : a.memory.length < a.batch_size
    · have heq : replay ts smp a = (a, none) := by simp only [replay, if_pos h]
      exact absurd (congrArg (fun p => p.1.epsilon) heq) hne
    · simp only [replay, if_neg h, Option.isSome_some]

/-- C7 witness: a fresh agent (empty buffer, batch size 64) on a concrete
gradient step and batch selector. -/
theorem replay_underfilled_noop_witness :
    replay trivial_train_step id (init_agent 1 27 net0 opt0) =
      (init_agent 1 27 net0 opt0, none) :=
  (replay_underfilled_noop trivial_train_step id (init_agent 1 27 net0 opt0)).1
    (by decide)

/-- C8 (confirmed): `_analyze_results` computes exactly the spec's
direction-aware relative improvement (`improvement_A − improvement_B` per
metric), flags significance exactly when the absolute mean relative
improvement exceeds 5, reports `confidence = min(|mean|/10 × 100, 99)`, and
emits the adopt / caution / reject recommendation exactly per the spec's
categorical rule. -/
theorem analyze_results_matches_spec (ia fa ib fb : GroupMetrics) :
    (analyze_results ia fa ib fb).improvement = spec_relative_improvement ia fa ib fb ∧
    ((analyze_results ia fa ib fb).is_significant = true ↔
      5 < |spec_mean_relative_improvement ia fa ib fb|) ∧
    (analyze_results ia fa ib fb).confidence =
      min (|spec_mean_relative_improvement ia fa ib fb| / 10 * 100) 99 ∧
    (analyze_results ia fa ib fb).recommendation =
      recommendation_string
        (spec_recommendation (spec_mean_relative_improvement ia fa ib fb)
          (analyze_results ia fa ib fb).is_significant) := by
  refine ⟨rfl, decide_eq_true_iff, rfl, ?_⟩
  simp only [analyze_results, spec_recommendation, recommendation_string,
    spec_mean_relative_improvement, spec_relative_improvement, spec_group_improvement]
  split_ifs <;> rfl

theorem apply_op_hyper (a : AgentState) (op : AgentOp) :
    (apply_op a op).epsilon_min = a.epsilon_min ∧
    (apply_op a op).epsilon_decay = a.epsilon_decay ∧
    (apply_op a op).batch_size = a.batch_size ∧
    (apply_op a op).memory_size = a.memory_size := by
  cases op with
  | remember_op e => exact ⟨rfl, rfl, rfl, rfl⟩
  | act_op s t d r => exact ⟨rfl, rfl, rfl, rfl⟩
  | replay_op ts smp =>
    simp only [apply_op, replay]
    split_ifs <;> exact ⟨rfl, rfl, rfl, rfl⟩

theorem apply_op_epsilon_cases (a : AgentState) (op : AgentOp) :
    (apply_op a op).epsilon = a.epsilon ∨
      ((apply_op a op).epsilon = a.epsilon * a.epsilon_decay ∧
        a.epsilon_min < a.epsilon) := by
  cases op with
  | remember_op e => exact Or.inl rfl
  | act_op s t d r => exact Or.inl rfl
  | replay_op ts smp =>
    simp only [apply_op, replay]
    split_ifs with h1 h2
    · exact Or.inl rfl
    · exact Or.inr ⟨rfl, h2⟩
    · exact Or.inl rfl

theorem apply_ops_epsilon_lower (ops : List AgentOp) (a : AgentState)
    (hmin : a.epsilon_min = 1/100) (hdec : a.epsilon_decay = 199/200)
    (heps : 199/20000 ≤ a.epsilon) :
    199/20000 ≤ (apply_ops ops a).epsilon := by
  induction ops generalizing a with
  | nil => exact heps
  | cons op rest ih =>
    show 199/20000 ≤ (apply_ops rest (apply_op a op)).epsilon
    have hh := apply_op_hyper a op
    refine ih (apply_op a op) (by rw [hh.1, hmin]) (by rw [hh.2.1, hdec]) ?_
    rcases apply_op_epsilon_cases a op with he | ⟨he, hgt⟩
    · rw [he]; exact heps
    · rw [he, hdec]
      rw [hmin] at hgt
      linarith

theorem apply_ops_epsilon_stable (ops : List AgentOp) (a : AgentState)
    (h : a.epsilon ≤ a.epsilon_min) :
    (apply_ops ops a).epsilon = a.epsilon := by
  induction ops generalizing a with
  | nil => rfl
  | cons op rest ih =>
    have hop : (apply_op a op).epsilon = a.epsilon := by
      rcases apply_op_epsilon_cases a op with he | ⟨_, hgt⟩
      · exact he
      · exact absurd hgt (not_lt.2 h)
    have h' : (apply_op a op).epsilon ≤ (apply_op a op).epsilon_min := by
      rw [hop, (apply_op_hyper a op).1]; exact h
    show (apply_ops rest (apply_op a op)).epsilon = _
    rw [ih _ h', hop]

theorem apply_ops_append (l1 l2 : List AgentOp) (a : AgentState) :
    apply_ops (l1 ++ l2) a = apply_ops l2 (apply_ops l1 a) := by
  simp [apply_ops, List.foldl_append]

theorem replay_full_state (ts : TrainStep) (smp : List Experience → List Experience)
    (a : AgentState) (h : ¬ a.memory.length < a.batch_size) :
    (replay ts smp a).1.epsilon =
      (if a.epsilon_min < a.epsilon then a.epsilon * a.epsilon_decay else a.epsilon) ∧
    (replay ts smp a).1.memory = a.memory := by
  simp only [replay, if_neg h]
  split_ifs <;> exact ⟨rfl, rfl⟩

theorem remember_ops_state (k : ℕ) :
    ∀ a : AgentState, a.memory.length + k ≤ a.memory_size →
      (apply_ops (List.replicate k (AgentOp.remember_op dummy_exp)) a).memory.length =
          a.memory.length + k ∧
      (apply_ops (List.replicate k (AgentOp.remember_op dummy_exp)) a).epsilon =
          a.epsilon ∧
      (apply_ops (List.replicate k (AgentOp.remember_op dummy_exp)) a).epsilon_min =
          a.epsilon_min ∧
      (apply_ops (List.replicate k (AgentOp.remember_op dummy_exp)) a).epsilon_decay =
          a.epsilon_decay ∧
      (apply_ops (List.replicate k (AgentOp.remember_op dummy_exp)) a).batch_size =
          a.batch_size := by
  induction k with
  | zero => intro a _; exact ⟨rfl, rfl, rfl, rfl, rfl⟩
  | succ n ih =>
    intro a hcap
    rw [List.replicate_succ]
    have hlen : (remember a dummy_exp).memory.length = a.memory.length + 1 := by
      show (push_bounded a.memory a.memory_size dummy_exp).length = _
      simp only [push_bounded]
      split_ifs with h
      · exfalso
        simp only [List.length_append, List.length_cons, List.length_nil] at h
        omega
      · simp
    have hcap' : (remember a dummy_exp).memory.length + n ≤
        (remember a dummy_exp).memory_size := by
      rw [hlen]
      show _ ≤ a.memory_size
      omega
    have IH := ih (remember a dummy_exp) hcap'
    refine ⟨?_, ?_, ?_, ?_, ?_⟩
    · show (apply_ops (List.replicate n _) (apply_op a _)).memory.length = _
      rw [show apply_op a (AgentOp.remember_op dummy_exp) = remember a dummy_exp from rfl,
        IH.1, hlen]
      omega
    · exact IH.2.1
    · exact IH.2.2.1
    · exact IH.2.2.2.1
    · exact IH.2.2.2.2

theorem replay_ops_epsilon_pow (k : ℕ) :
    ∀ a : AgentState, a.batch_size ≤ a.memory.length →
      a.epsilon_min = 1/100 → a.epsilon_decay = 199/200 →
      (∀ j, j < k → 1/100 < a.epsilon * (199/200 : ℚ) ^ j) →
      (apply_ops (List.replicate k (AgentOp.replay_op trivial_train_step id)) a).epsilon =
        a.epsilon * (199/200 : ℚ) ^ k := by
  induction k with
  | zero => intro a _ _ _ _; simp [apply_ops]
  | succ n ih =>
    intro a hfull hmin hdec hguard
    rw [List.replicate_succ]
    have hnotlt : ¬ a.memory.length < a.batch_size := not_lt.2 hfull
    have hgt : a.epsilon_min < a.epsilon := by
      rw [hmin]
      have := hguard 0 (Nat.succ_pos n)
      simpa using this
    have heps : (apply_op a (AgentOp.replay_op trivial_train_step id)).epsilon =
        a.epsilon * (199/200 : ℚ) := by
      show (replay _ _ a).1.epsilon = _
      rw [(replay_full_state _ _ a hnotlt).1, if_pos hgt, hdec]
    have hmem : (apply_op a (AgentOp.replay_op trivial_train_step id)).memory =
        a.memory := (replay_full_state _ _ a hnotlt).2
    have hh := apply_op_hyper a (AgentOp.replay_op trivial_train_step id)
    have IH := ih (apply_op a (AgentOp.replay_op trivial_train_step id))
      (by rw [hh.2.2.1, hmem]; exact hfull)
      (by rw [hh.1]; exact hmin)
      (by rw [hh.2.1]; exact hdec)
      (fun j hj => by
        rw [heps]
        calc (1 : ℚ)/100 < a.epsilon * (199/200 : ℚ) ^ (j + 1) :=
              hguard (j + 1) (Nat.succ_lt_succ hj)
          _ = a.epsilon * (199/200 : ℚ) * (199/200 : ℚ) ^ j := by ring)
    show (apply_ops (List.replicate n _) (apply_op a _)).epsilon = _
    rw [IH, heps]
    ring

/-- C10 (confirmed): from the initial epsilon 1.0, no sequence of agent calls
ever drives epsilon below `epsilon_min × epsilon_decay = 0.00995` (decay fires
only while epsilon strictly exceeds the floor 0.01); once epsilon is at or
below the floor it never changes again; and epsilon can indeed end strictly
below the documented floor 0.01 — some sequence of calls reaches
`0.00995 ≤ epsilon < 0.01`. -/
theorem epsilon_floor_behavior (ss as : ℕ) (q : DQNetwork) (opt : OptState) :
    (∀ ops : List AgentOp,
        199/20000 ≤ (apply_ops ops (init_agent ss as q opt)).epsilon) ∧
    (∀ a : AgentState, a.epsilon ≤ a.epsilon_min →
        ∀ ops : List AgentOp, (apply_ops ops a).epsilon = a.epsilon) ∧
    (∃ ops : List AgentOp,
        (apply_ops ops (init_agent ss as q opt)).epsilon < 1/100) := by
  refine ⟨?_, ?_, ?_⟩
  · intro ops
    refine apply_ops_epsilon_lower ops _ rfl rfl ?_
    show (199 : ℚ)/20000 ≤ 1
    norm_num
  · intro a h ops
    exact apply_ops_epsilon_stable ops a h
  · have hex : ∃ m : ℕ, (199/200 : ℚ) ^ m ≤ 1/100 := by
      obtain ⟨n, hn⟩ := exists_pow_lt_of_lt_one
        (show (0 : ℚ) < 1/100 by norm_num) (show (199/200 : ℚ) < 1 by norm_num)
      exact ⟨n, le_of_lt hn⟩
    refine ⟨List.replicate 64 (AgentOp.remember_op dummy_exp) ++
      List.replicate (Nat.find hex) (AgentOp.replay_op trivial_train_step id), ?_⟩
    rw [apply_ops_append]
    have h64 := remember_ops_state 64 (init_agent ss as q opt)
      (by show (0 : ℕ) + 64 ≤ 10000; norm_num)
    have hpow := replay_ops_epsilon_pow (Nat.find hex)
      (apply_ops (List.replicate 64 (AgentOp.remember_op dummy_exp))
        (init_agent ss as q opt))
      (by rw [h64.2.2.2.2, h64.1]; show (64 : ℕ) ≤ 0 + 64; norm_num)
      (by rw [h64.2.2.1]; rfl)
      (by rw [h64.2.2.2.1]; rfl)
      (fun j hj => by
        rw [h64.2.1]
        have hj' := Nat.find_min hex hj
        push_neg at hj'
        calc (1 : ℚ)/100 < (199/200 : ℚ) ^ j := hj'
          _ = (init_agent ss as q opt).epsilon * (199/200 : ℚ) ^ j := by
              rw [show (init_agent ss as q opt).epsilon = 1 from rfl, one_mul])
    rw [hpow, h64.2.1, show (init_agent ss as q opt).epsilon = 1 from rfl, one_mul]
    have hle : (199/200 : ℚ) ^ (Nat.find hex) ≤ 1/100 := Nat.find_spec hex
    refine lt_of_le_of_ne hle ?_
    intro habs
    have hm1 : Nat.find hex ≠ 0 := by
      intro h0
      rw [h0] at habs
      norm_num at habs
    have h' : ((199 : ℚ)) ^ (Nat.find hex) * 100 = (200 : ℚ) ^ (Nat.find hex) := by
      rw [div_pow] at habs
      have h200 : ((200 : ℚ)) ^ (Nat.find hex) ≠ 0 := by positivity
      have h'' := (div_eq_div_iff h200 (by norm_num : (100 : ℚ) ≠ 0)).1 habs
      rw [one_mul] at h''
      exact h''
    have hnat : (199 : ℕ) ^ (Nat.find hex) * 100 = 200 ^ (Nat.find hex) := by
      exact_mod_cast h'
    have hdvd : (199 : ℕ) ∣ 200 ^ (Nat.find hex) := by
      rw [← hnat]
      exact Dvd.dvd.mul_right (dvd_pow_self 199 hm1) 100
    have h199 : (199 : ℕ) ∣ 200 :=
      Nat.Prime.dvd_of_dvd_pow (by norm_num) hdvd
    norm_num at h199

/-- C10 witness: the floor bound after no calls, and stability from a concrete
at-floor agent state. -/
theorem epsilon_floor_behavior_witness :
    (199/20000 : ℚ) ≤ (apply_ops [] (init_agent 1 27 net0 opt0)).epsilon ∧
    (apply_ops [AgentOp.replay_op trivial_train_step id]
        { init_agent 1 27 net0 opt0 with epsilon := 1/200 }).epsilon = 1/200 :=
  ⟨(epsilon_floor_behavior 1 27 net0 opt0).1 [],
   (epsilon_floor_behavior 1 27 net0 opt0).2.1
      { init_agent 1 27 net0 opt0 with epsilon := 1/200 }
      (show (1 : ℚ)/200 ≤ 1/100 by norm_num)
      [AgentOp.replay_op trivial_train_step id]⟩

end RANOpt
